import Mathlib

/-!
Shallow embedding of the SheepGame authoritative server
(`src/unnamed/part_000`, constants from `src/unnamed/part_002`).

The server runs a fixed-rate game loop.  For each entity the loop:
skips dead entities (only decrementing their respawn timer, and
respawning them when it reaches 0), otherwise runs the physics
integrator, then the death checks, and — in a second pass over the AI
ids — the AI controller.  Finally the state is broadcast.

JavaScript numbers are modelled as real numbers; every call to
`Math.random()` is modelled as an explicit real-valued oracle argument.
-/

namespace SheepGame

open Classical

/-! ## Constants (src/unnamed/part_002, config.js) -/

noncomputable section

def TICK_RATE : ℝ := 60
def ACCELERATION : ℝ := 0.05
def MAX_SPEED : ℝ := 1.5
def TURN_ACCELERATION : ℝ := 0.015
def ANGULAR_FRICTION : ℝ := 0.75
def FRICTION : ℝ := 0.95
def SIDEWAYS_FRICTION_MULTIPLIER : ℝ := 3.0
def TILT_RECOVERY_DAMPING : ℝ := 0.95
def TILT_RECOVERY_FORCE : ℝ := 0.01
def GRAVITY : ℝ := 1
def FENCE_RADIUS : ℝ := 100
def SPAWN_RADIUS : ℝ := 50
def RESPAWN_AT_SPAWN : Bool := true

def toRadians (deg : ℝ) : ℝ := deg * Real.pi / 180
def TILT_DEATH_RAD : ℝ := toRadians 60
def GROUND_Y : ℝ := 0.6
def RESPAWN_TIME : ℝ := 3

/-! ## Data model -/

/-- The five AI personalities (part_000, lines 61-67). -/
inductive Personality
  | timid
  | brave
  | curious
  | hyper
  | aggressive
deriving DecidableEq

structure Vec3 where
  x : ℝ
  y : ℝ
  z : ℝ
deriving DecidableEq

/-- One entity of the player store (part_000, line 40).  Fields that are
`undefined` in JavaScript for human players (the AI-only fields) are
modelled with their JavaScript-falsy defaults; `personality` is `none`
for human players. -/
structure Player where
  position : Vec3
  spawn : Option Vec3
  rotation : ℝ
  angularVelocity : ℝ
  velocityX : ℝ
  velocityY : ℝ
  velocityZ : ℝ
  isDead : Bool
  respawnTimer : ℝ
  rotationX : ℝ
  rotationZ : ℝ
  angularVelocityX : ℝ
  angularVelocityZ : ℝ
  isAI : Bool
  aiTimer : ℝ
  aiTargetAngle : ℝ
  aiAvoidTimer : ℝ
  personality : Option Personality
  scaredTimer : ℝ

/-- Input record: the four key flags (part_000, line 44). -/
structure InputRecord where
  w : Bool
  a : Bool
  s : Bool
  d : Bool
deriving DecidableEq

/-- JavaScript's `Math.atan2(a, b)` with its argument order
`atan2(y, x)`: the angle of the point `(b, a)`. -/
def atan2 (a b : ℝ) : ℝ := Complex.arg ⟨b, a⟩

/-- The `getRandomSpawn` helper (part_000, lines 48-56); `r1`, `r2` are the two
`Math.random()` draws. -/
def getRandomSpawn (r1 r2 : ℝ) : Vec3 :=
  let angle := r1 * Real.pi * 2
  let radius := r2 * SPAWN_RADIUS
  { x := Real.cos angle * radius
    y := GROUND_Y
    z := Real.sin angle * radius }

/-- The `createAISheep` factory (part_000, lines 68-96); `r1`, `r2`, `r3`, `r4` are the
`Math.random()` draws for spawn angle, spawn radius, yaw and initial AI
target angle. -/
def createAISheep (r1 r2 r3 r4 : ℝ) (personality : Personality) : Player :=
  let angle := r1 * Real.pi * 2
  let radius := r2 * (SPAWN_RADIUS * 0.7)
  { position := { x := Real.cos angle * radius, y := GROUND_Y, z := Real.sin angle * radius }
    spawn := none
    rotation := r3 * Real.pi * 2
    angularVelocity := 0
    velocityX := 0
    velocityY := 0
    velocityZ := 0
    isDead := false
    respawnTimer := 0
    rotationX := 0
    rotationZ := 0
    angularVelocityX := 0
    angularVelocityZ := 0
    isAI := true
    aiTimer := 0
    aiTargetAngle := r4 * Real.pi * 2
    aiAvoidTimer := 0
    personality := some personality
    scaredTimer := 0 }

/-- The player object created on a new connection (part_000, lines
398-415); AI-only fields are `undefined` in the source and get their
falsy defaults here. -/
def newPlayer (r1 r2 r3 : ℝ) : Player :=
  let spawnPos := getRandomSpawn r1 r2
  { position := spawnPos
    spawn := some spawnPos
    rotation := r3 * Real.pi * 2
    angularVelocity := 0
    velocityX := 0
    velocityY := 0
    velocityZ := 0
    isDead := false
    respawnTimer := 0
    rotationX := 0
    rotationZ := 0
    angularVelocityX := 0
    angularVelocityZ := 0
    isAI := false
    aiTimer := 0
    aiTargetAngle := 0
    aiAvoidTimer := 0
    personality := none
    scaredTimer := 0 }

/-! ## Physics integrator (part_000, lines 133-243), one stage per
source block. -/

/-- Turning and yaw update (lines 136-146). -/
def turnStage (input : InputRecord) (p : Player) : Player :=
  let turnDir : ℝ := if input.s = true ∧ ¬ input.w = true then -1 else 1
  let av0 := if input.a = true then p.angularVelocity + TURN_ACCELERATION * turnDir
             else p.angularVelocity
  let av1 := if input.d = true then av0 - TURN_ACCELERATION * turnDir else av0
  let av := av1 * ANGULAR_FRICTION
  { p with angularVelocity := av, rotation := p.rotation + av }

/-- Forward/backward thrust (lines 148-160). -/
def thrustStage (input : InputRecord) (p : Player) : Player :=
  let accX0 : ℝ := if input.w = true then Real.sin p.rotation * ACCELERATION else 0
  let accZ0 : ℝ := if input.w = true then Real.cos p.rotation * ACCELERATION else 0
  let accX := if input.s = true then accX0 - Real.sin p.rotation * ACCELERATION * 0.5 else accX0
  let accZ := if input.s = true then accZ0 - Real.cos p.rotation * ACCELERATION * 0.5 else accZ0
  { p with velocityX := p.velocityX + accX, velocityZ := p.velocityZ + accZ }

/-- Car-like anisotropic friction (lines 162-176). -/
def frictionStage (p : Player) : Player :=
  let forwardX := Real.sin p.rotation
  let forwardZ := Real.cos p.rotation
  let rightX := Real.cos p.rotation
  let rightZ := -Real.sin p.rotation
  let forwardSpeed := p.velocityX * forwardX + p.velocityZ * forwardZ
  let sidewaysSpeed := p.velocityX * rightX + p.velocityZ * rightZ
  let newForwardSpeed := forwardSpeed * FRICTION
  let newSidewaysSpeed := sidewaysSpeed * (1 - (1 - FRICTION) * SIDEWAYS_FRICTION_MULTIPLIER)
  { p with
      velocityX := forwardX * newForwardSpeed + rightX * newSidewaysSpeed
      velocityZ := forwardZ * newForwardSpeed + rightZ * newSidewaysSpeed }

/-- Speed clamp and anti-drift snap (lines 178-188).  Both conditions
test the speed computed once at line 179. -/
def clampStage (p : Player) : Player :=
  let speed := Real.sqrt (p.velocityX ^ 2 + p.velocityZ ^ 2)
  let vx0 := if speed > MAX_SPEED then p.velocityX * (MAX_SPEED / speed) else p.velocityX
  let vz0 := if speed > MAX_SPEED then p.velocityZ * (MAX_SPEED / speed) else p.velocityZ
  let vx := if speed < 0.01 then 0 else vx0
  let vz := if speed < 0.01 then 0 else vz0
  { p with velocityX := vx, velocityZ := vz }

/-- Gravity and position integration (lines 190-196). -/
def integrateStage (p : Player) : Player :=
  let vy := p.velocityY - GRAVITY / TICK_RATE
  { p with
      velocityY := vy
      position := { x := p.position.x + p.velocityX
                    y := p.position.y + vy
                    z := p.position.z + p.velocityZ } }

/-- Scared-timid airborne override (lines 198-204). -/
def scareOverrideStage (p : Player) : Player :=
  if p.personality = some .timid ∧ p.scaredTimer > 0 ∧ p.position.y > GROUND_Y then
    { p with velocityX := 0, velocityZ := 0, angularVelocityX := -0.7 }
  else p

/-- Ground constraint (lines 206-213). -/
def groundStage (p : Player) : Player :=
  if p.position.y < GROUND_Y then
    { p with
        position := { p.position with y := GROUND_Y }
        velocityY := 0
        angularVelocityX := p.angularVelocityX * 0.9
        angularVelocityZ := p.angularVelocityZ * 0.9 }
  else p

/-- Tilt dynamics, turn lean and jitter snaps (lines 215-243). -/
def tiltStage (p : Player) : Player :=
  let rx0 := p.rotationX + p.angularVelocityX
  let rz0 := p.rotationZ + p.angularVelocityZ
  let avx0 := (p.angularVelocityX - rx0 * TILT_RECOVERY_FORCE) * TILT_RECOVERY_DAMPING
  let avz0 := (p.angularVelocityZ - rz0 * TILT_RECOVERY_FORCE) * TILT_RECOVERY_DAMPING
  let avx := if |avx0| < 0.001 then 0 else avx0
  let avz := if |avz0| < 0.001 then 0 else avz0
  let targetTurningTiltZ := -p.angularVelocity * 5
  let rz1 := rz0 * 0.95 + targetTurningTiltZ * 0.05
  let rz := if |rz1| < 0.01 ∧ |p.angularVelocity| < 0.01 ∧ |avz| < 0.01 then 0 else rz1
  let rx := if |rx0| < 0.01 ∧ |avx| < 0.01 then 0 else rx0
  { p with rotationX := rx, rotationZ := rz, angularVelocityX := avx, angularVelocityZ := avz }

/-- The whole per-entity physics pass (lines 133-243) in source order. -/
def physicsStep (input : InputRecord) (p : Player) : Player :=
  tiltStage (groundStage (scareOverrideStage (integrateStage
    (clampStage (frictionStage (thrustStage input (turnStage input p)))))))

/-! ## Lifecycle: death checks (lines 245-262) and the dead branch
(lines 109-130). -/

/-- A `death` broadcast event `{type:'death', id, position}` (lines 251,
260). -/
structure DeathEvent where
  id : String
  position : Vec3
deriving DecidableEq

/-- Fence-crossing death check (lines 245-253). -/
def fenceCheckStep (id : String) (p : Player) : Player × List DeathEvent :=
  let distanceFromCenter := Real.sqrt (p.position.x ^ 2 + p.position.z ^ 2)
  if distanceFromCenter ≥ FENCE_RADIUS then
    if ¬ p.isDead = true then
      ({ p with isDead := true, respawnTimer := RESPAWN_TIME }, [⟨id, p.position⟩])
    else (p, [])
  else (p, [])

/-- Tilt death check (lines 254-262): only evaluated on the ground, and
skipped for a recently scared timid sheep. -/
def tiltCheckStep (id : String) (p : Player) : Player × List DeathEvent :=
  if p.position.y ≤ GROUND_Y + 0.001 then
    let isRecentlyScaredTimid := p.personality = some .timid ∧ p.scaredTimer > 0
    if ¬ isRecentlyScaredTimid ∧ (|p.rotationZ| > TILT_DEATH_RAD ∨ |p.rotationX| > TILT_DEATH_RAD)
        ∧ ¬ p.isDead = true then
      ({ p with isDead := true, respawnTimer := RESPAWN_TIME }, [⟨id, p.position⟩])
    else (p, [])
  else (p, [])

/-- Both death checks in source order. -/
def lifecycleStep (id : String) (p : Player) : Player × List DeathEvent :=
  let f := fenceCheckStep id p
  let t := tiltCheckStep id f.1
  (t.1, f.2 ++ t.2)

/-- The dead branch of the game loop (lines 109-130): decrement the
respawn timer by `1 / TICK_RATE` and respawn once it reaches 0.
`r1`, `r2` are the `getRandomSpawn` draws and `r3` the fresh-yaw draw. -/
def deadStep (r1 r2 r3 : ℝ) (p : Player) : Player :=
  let timer := p.respawnTimer - 1 / TICK_RATE
  if timer ≤ 0 then
    let pos := if RESPAWN_AT_SPAWN = true then
        match p.spawn with
        | some sp => { sp with y := GROUND_Y }
        | none => getRandomSpawn r1 r2
      else getRandomSpawn r1 r2
    { p with
        respawnTimer := timer
        position := pos
        rotation := r3 * Real.pi * 2
        angularVelocity := 0
        velocityX := 0
        velocityY := 0
        velocityZ := 0
        rotationX := 0
        rotationZ := 0
        angularVelocityX := 0
        angularVelocityZ := 0
        isDead := false }
  else { p with respawnTimer := timer }

/-! ## AI controller (lines 265-369). -/

/-- One tick's worth of `Math.random()` draws for the AI pass, one field
per call site. -/
structure AIRng where
  braveRoll : ℝ
  avoidOffset : ℝ
  curiousRoll : ℝ
  curiousOffset : ℝ
  aggressiveOffset : ℝ
  hyperTimer : ℝ
  walkAngle : ℝ
  walkTimer : ℝ

/-- Nearest-live-neighbour scan (lines 298-310 and 324-336): fold over
the other entities keeping the closest distance and the angle toward
the closest one; `none` models `closestDist = Infinity, targetAngle =
null`. -/
def scanNearest (sheep : Player) (others : List Player) : Option (ℝ × ℝ) :=
  others.foldl
    (fun acc other =>
      if other.isDead = true then acc
      else
        let dx := other.position.x - sheep.position.x
        let dz := other.position.z - sheep.position.z
        let d := Real.sqrt (dx * dx + dz * dz)
        match acc with
        | none => some (d, atan2 dx dz)
        | some (cd, ta) => if d < cd then some (d, atan2 dx dz) else some (cd, ta))
    none

/-- Personality-specific targeting (lines 270-340). -/
def aiBehaviorStage (rng : AIRng) (others : List Player) (sheep : Player) : Player :=
  match sheep.personality with
  | some .timid =>
    if sheep.scaredTimer > 0 then
      let s1 := { sheep with scaredTimer := sheep.scaredTimer - 1 / TICK_RATE }
      let dist := Real.sqrt (s1.position.x ^ 2 + s1.position.z ^ 2)
      if dist > FENCE_RADIUS * 0.9 then
        let angleToCenter := atan2 (-s1.position.x) (-s1.position.z)
        { s1 with aiTargetAngle := angleToCenter + (rng.avoidOffset - 0.5) * 0.4
                  aiTimer := 0.1 }
      else s1
    else sheep
  | some .brave =>
    if rng.braveRoll < 0.8 then
      let dist := Real.sqrt (sheep.position.x ^ 2 + sheep.position.z ^ 2)
      if dist > FENCE_RADIUS * 0.9 then
        let angleToCenter := atan2 (-sheep.position.x) (-sheep.position.z)
        { sheep with aiTargetAngle := angleToCenter + (rng.avoidOffset - 0.5) * 0.4 }
      else sheep
    else sheep
  | some .curious =>
    if rng.curiousRoll < 0.01 then
      match scanNearest sheep others with
      | some (_, ta) => { sheep with aiTargetAngle := ta + (rng.curiousOffset - 0.5) * 0.3 }
      | none => sheep
    else sheep
  | some .hyper =>
    if sheep.aiTimer ≤ 0 then { sheep with aiTimer := 0.5 + rng.hyperTimer * 0.5 } else sheep
  | some .aggressive =>
    match scanNearest sheep others with
    | some (_, ta) => { sheep with aiTargetAngle := ta + (rng.aggressiveOffset - 0.5) * 0.2 }
    | none => sheep
  | none => sheep

/-- Random-walk timer fallback (lines 342-349). -/
def aiWalkStage (rng : AIRng) (sheep : Player) : Player :=
  let s1 := { sheep with aiTimer := sheep.aiTimer - 1 / TICK_RATE }
  if s1.aiTimer ≤ 0 ∧ (¬ s1.personality = some .timid ∨ s1.aiAvoidTimer ≤ 0) then
    let t : ℝ := if s1.personality = some .hyper then 0.5 + rng.walkTimer * 0.5
                 else 2 + rng.walkTimer * 3
    { s1 with aiTargetAngle := rng.walkAngle * Real.pi * 2, aiTimer := t }
  else s1

/-- Heading-to-motion (lines 351-368): proportional turn toward the
target angle, then forward thrust along the new yaw. -/
def aiHeadingStage (sheep : Player) : Player :=
  let angleDiff0 := sheep.aiTargetAngle - sheep.rotation
  let angleDiff := atan2 (Real.sin angleDiff0) (Real.cos angleDiff0)
  let turnSpeed : ℝ := match sheep.personality with
    | some .timid => 0.09
    | some .brave => 0.05
    | some .curious => 0.07
    | some .hyper => 0.13
    | _ => 0.07
  let moveSpeed : ℝ := match sheep.personality with
    | some .timid => 0.6
    | some .brave => 0.8
    | some .curious => 0.7
    | some .hyper => 1.1
    | _ => 0.7
  let av := angleDiff * turnSpeed
  let rot := sheep.rotation + av
  { sheep with
      angularVelocity := av
      rotation := rot
      velocityX := sheep.velocityX + Real.sin rot * ACCELERATION * moveSpeed
      velocityZ := sheep.velocityZ + Real.cos rot * ACCELERATION * moveSpeed }

/-- The whole AI pass for one sheep (lines 270-368). -/
def aiStep (rng : AIRng) (others : List Player) (sheep : Player) : Player :=
  aiHeadingStage (aiWalkStage rng (aiBehaviorStage rng others sheep))

/-! ## One tick for one entity. -/

/-- All the `Math.random()` draws one entity may consume in one tick. -/
structure TickRng where
  respawnAngle : ℝ
  respawnRadius : ℝ
  respawnYaw : ℝ
  ai : AIRng

/-- One game-loop tick as seen by a single entity (lines 105-369):
the dead branch, or physics followed by the death checks; then — in the
second loop over AI ids — the AI controller, run only when the entity is
an AI sheep that is alive at that point (line 268).  A sheep that
respawned in this very tick is alive again and does run its AI pass;
a sheep that died in this tick's death checks does not.  The second
component collects the `death` events broadcast for this entity. -/
def tickEntity (rng : TickRng) (input : InputRecord) (others : List Player)
    (id : String) (p : Player) : Player × List DeathEvent :=
  if p.isDead = true then
    let p1 := deadStep rng.respawnAngle rng.respawnRadius rng.respawnYaw p
    let p2 := if p1.isAI = true ∧ ¬ p1.isDead = true then aiStep rng.ai others p1 else p1
    (p2, [])
  else
    let p1 := physicsStep input p
    let lc := lifecycleStep id p1
    let p2 := if lc.1.isAI = true ∧ ¬ lc.1.isDead = true then aiStep rng.ai others lc.1 else lc.1
    (p2, lc.2)

/-- Reachable entity states: freshly connected players, AI sheep created
at process start, and anything a game-loop tick produces from a
reachable state. -/
inductive Reachable : Player → Prop
  | player (r1 r2 r3 : ℝ) : Reachable (newPlayer r1 r2 r3)
  | ai (r1 r2 r3 r4 : ℝ) (pers : Personality) : Reachable (createAISheep r1 r2 r3 r4 pers)
  | step (rng : TickRng) (input : InputRecord) (others : List Player) (id : String)
      (p : Player) : Reachable p → Reachable (tickEntity rng input others id p).1

/-- Planar speed of an entity, `Math.sqrt(velocityX**2 + velocityZ**2)`. -/
def planarSpeed (p : Player) : ℝ := Real.sqrt (p.velocityX ^ 2 + p.velocityZ ^ 2)

/-! ## Reference definitions taken from the spec's words, for the
refinement claims. -/

/-- Reference definition following the spec's words (§4.1 step 3,
anisotropic friction): decompose velocity.xz into a forward component
(dot with `(sin yaw, cos yaw)`) and a right component (dot with
`(cos yaw, -sin yaw)`), scale the forward component by `friction` and
the right component by `1 - (1 - friction) * sidewaysMultiplier`, then
recompose on the same basis.  Returns the new `(velocityX, velocityZ)`. -/
def specAnisotropicFriction (yaw vx vz : ℝ) : ℝ × ℝ :=
  let fwdX := Real.sin yaw
  let fwdZ := Real.cos yaw
  let rightX := Real.cos yaw
  let rightZ := -Real.sin yaw
  let forwardComp := vx * fwdX + vz * fwdZ
  let rightComp := vx * rightX + vz * rightZ
  let forwardScaled := forwardComp * FRICTION
  let rightScaled := rightComp * (1 - (1 - FRICTION) * SIDEWAYS_FRICTION_MULTIPLIER)
  (fwdX * forwardScaled + rightX * rightScaled,
   fwdZ * forwardScaled + rightZ * rightScaled)

/-- The random-walk fallback with the guard every non-timid personality
uses, `aiTimer <= 0` alone; used to state that with `aiAvoidTimer = 0`
the timid guard collapses to this one. -/
def aiWalkStageUniform (rng : AIRng) (sheep : Player) : Player :=
  let s1 := { sheep with aiTimer := sheep.aiTimer - 1 / TICK_RATE }
  if s1.aiTimer ≤ 0 then
    let t : ℝ := if s1.personality = some .hyper then 0.5 + rng.walkTimer * 0.5
                 else 2 + rng.walkTimer * 3
    { s1 with aiTargetAngle := rng.walkAngle * Real.pi * 2, aiTimer := t }
  else s1

/-- Modelled from the spec (§4.2, heading-to-motion): a tick in which
the AI controller's heading-to-motion stage runs before the shared
friction and speed-clamp stages of the physics integrator are applied
to the same entity, as the claim asserts the code does. -/
def specOrderTickAI (rng : TickRng) (input : InputRecord) (others : List Player)
    (id : String) (p : Player) : Player × List DeathEvent :=
  if p.isDead = true then
    (deadStep rng.respawnAngle rng.respawnRadius rng.respawnYaw p, [])
  else
    let p0 := aiStep rng.ai others (thrustStage input (turnStage input p))
    let p1 := tiltStage (groundStage (scareOverrideStage (integrateStage
      (clampStage (frictionStage p0)))))
    lifecycleStep id p1

end

/-! ## Client message handling (lines 442-456).  `JSON.parse` is
modelled by its result: `none` when it throws (the `catch` branch, which
logs and changes nothing), otherwise the relevant field lookups on the
parsed value (`undefined` fields are `none`). -/

/-- A JavaScript value as far as the handler inspects one. -/
inductive JsVal
  | str (s : String)
  | jsbool (b : Bool)
  | num (q : ℚ)
  | null
deriving DecidableEq

/-- The three field lookups the handler performs on the parsed message. -/
structure MsgData where
  msgType : Option JsVal
  msgKey : Option JsVal
  msgPressed : Option JsVal
deriving DecidableEq

/-- The check `inputStates[id].hasOwnProperty(k)`: the input record's own
properties are exactly `w`, `a`, `s`, `d` (line 415). -/
def hasOwnProperty (k : String) : Bool :=
  k = "w" || k = "a" || k = "s" || k = "d"

/-- The assignment `inputStates[id][data.key] = data.pressed` for a known key. -/
def setFlag (i : InputRecord) (k : String) (b : Bool) : InputRecord :=
  if k = "w" then { i with w := b }
  else if k = "a" then { i with a := b }
  else if k = "s" then { i with s := b }
  else if k = "d" then { i with d := b }
  else i

/-- The `ws.on('message')` handler (lines 442-456), returning the
sender's input record after the message.  `parsed = none` is a
`JSON.parse` failure; `ist` is the sender's input record (`none` if the
player no longer exists). -/
def handleMessage (parsed : Option MsgData) (ist : Option InputRecord) :
    Option InputRecord :=
  match parsed with
  | none => ist
  | some data =>
    match ist with
    | none => ist
    | some i =>
      if data.msgType = some (.str ("input")) then
        match data.msgKey, data.msgPressed with
        | some (.str k), some (.jsbool b) =>
          if hasOwnProperty k = true then some (setFlag i k b) else some i
        | _, _ => some i
      else some i

/-! ## Concrete states used by counterexamples and witnesses. -/

/-- A fixed all-zero random oracle. -/
noncomputable def rng0 : TickRng := ⟨0, 0, 0, ⟨0, 0, 0, 0, 0, 0, 0, 0⟩⟩

/-- The all-false input record (the default for AI and missing ids,
line 134). -/
def inp0 : InputRecord := ⟨false, false, false, false⟩

/-- An alive aggressive AI sheep at rest at the centre, with its walk
timer far from expiry and its target angle equal to its yaw. -/
noncomputable def cexSheep : Player :=
  { position := ⟨0, GROUND_Y, 0⟩
    spawn := none
    rotation := 0
    angularVelocity := 0
    velocityX := 0
    velocityY := 0
    velocityZ := 0
    isDead := false
    respawnTimer := 0
    rotationX := 0
    rotationZ := 0
    angularVelocityX := 0
    angularVelocityZ := 0
    isAI := true
    aiTimer := 5
    aiTargetAngle := 0
    aiAvoidTimer := 0
    personality := some .aggressive
    scaredTimer := 0 }

/-! ## Field-preservation lemmas: which fields each stage leaves
untouched. -/

@[simp] theorem turnStage_position (i : InputRecord) (p : Player) : (turnStage i p).position = p.position := rfl

@[simp] theorem turnStage_velocityX (i : InputRecord) (p : Player) : (turnStage i p).velocityX = p.velocityX := rfl

@[simp] theorem turnStage_velocityY (i : InputRecord) (p : Player) : (turnStage i p).velocityY = p.velocityY := rfl

@[simp] theorem turnStage_velocityZ (i : InputRecord) (p : Player) : (turnStage i p).velocityZ = p.velocityZ := rfl

@[simp] theorem turnStage_isDead (i : InputRecord) (p : Player) : (turnStage i p).isDead = p.isDead := rfl

@[simp] theorem turnStage_isAI (i : InputRecord) (p : Player) : (turnStage i p).isAI = p.isAI := rfl

@[simp] theorem turnStage_aiAvoidTimer (i : InputRecord) (p : Player) : (turnStage i p).aiAvoidTimer = p.aiAvoidTimer := rfl

@[simp] theorem thrustStage_position (i : InputRecord) (p : Player) : (thrustStage i p).position = p.position := rfl

@[simp] theorem thrustStage_velocityY (i : InputRecord) (p : Player) : (thrustStage i p).velocityY = p.velocityY := rfl

@[simp] theorem thrustStage_isDead (i : InputRecord) (p : Player) : (thrustStage i p).isDead = p.isDead := rfl

@[simp] theorem thrustStage_isAI (i : InputRecord) (p : Player) : (thrustStage i p).isAI = p.isAI := rfl

@[simp] theorem thrustStage_aiAvoidTimer (i : InputRecord) (p : Player) : (thrustStage i p).aiAvoidTimer = p.aiAvoidTimer := rfl

@[simp] theorem frictionStage_position (p : Player) : (frictionStage p).position = p.position := rfl

@[simp] theorem frictionStage_velocityY (p : Player) : (frictionStage p).velocityY = p.velocityY := rfl

@[simp] theorem frictionStage_isDead (p : Player) : (frictionStage p).isDead = p.isDead := rfl

@[simp] theorem frictionStage_isAI (p : Player) : (frictionStage p).isAI = p.isAI := rfl

@[simp] theorem frictionStage_aiAvoidTimer (p : Player) : (frictionStage p).aiAvoidTimer = p.aiAvoidTimer := rfl

@[simp] theorem clampStage_position (p : Player) : (clampStage p).position = p.position := rfl

@[simp] theorem clampStage_velocityY (p : Player) : (clampStage p).velocityY = p.velocityY := rfl

@[simp] theorem clampStage_isDead (p : Player) : (clampStage p).isDead = p.isDead := rfl

@[simp] theorem clampStage_isAI (p : Player) : (clampStage p).isAI = p.isAI := rfl

@[simp] theorem clampStage_aiAvoidTimer (p : Player) : (clampStage p).aiAvoidTimer = p.aiAvoidTimer := rfl

@[simp] theorem integrateStage_velocityX (p : Player) : (integrateStage p).velocityX = p.velocityX := rfl

@[simp] theorem integrateStage_velocityZ (p : Player) : (integrateStage p).velocityZ = p.velocityZ := rfl

@[simp] theorem integrateStage_isDead (p : Player) : (integrateStage p).isDead = p.isDead := rfl

@[simp] theorem integrateStage_isAI (p : Player) : (integrateStage p).isAI = p.isAI := rfl

@[simp] theorem integrateStage_aiAvoidTimer (p : Player) : (integrateStage p).aiAvoidTimer = p.aiAvoidTimer := rfl

theorem integrateStage_y (p : Player) : (integrateStage p).position.y = p.position.y + (p.velocityY - GRAVITY / TICK_RATE) := rfl

theorem integrateStage_velocityY (p : Player) : (integrateStage p).velocityY = p.velocityY - GRAVITY / TICK_RATE := rfl

@[simp] theorem scareOverrideStage_position (p : Player) : (scareOverrideStage p).position = p.position := by
  unfold scareOverrideStage; split <;> rfl

@[simp] theorem scareOverrideStage_velocityY (p : Player) : (scareOverrideStage p).velocityY = p.velocityY := by
  unfold scareOverrideStage; split <;> rfl

@[simp] theorem scareOverrideStage_isDead (p : Player) : (scareOverrideStage p).isDead = p.isDead := by
  unfold scareOverrideStage; split <;> rfl

@[simp] theorem scareOverrideStage_isAI (p : Player) : (scareOverrideStage p).isAI = p.isAI := by
  unfold scareOverrideStage; split <;> rfl

@[simp] theorem scareOverrideStage_aiAvoidTimer (p : Player) : (scareOverrideStage p).aiAvoidTimer = p.aiAvoidTimer := by
  unfold scareOverrideStage; split <;> rfl

@[simp] theorem groundStage_velocityX (p : Player) : (groundStage p).velocityX = p.velocityX := by
  unfold groundStage; split <;> rfl

@[simp] theorem groundStage_velocityZ (p : Player) : (groundStage p).velocityZ = p.velocityZ := by
  unfold groundStage; split <;> rfl

@[simp] theorem groundStage_isDead (p : Player) : (groundStage p).isDead = p.isDead := by
  unfold groundStage; split <;> rfl

@[simp] theorem groundStage_isAI (p : Player) : (groundStage p).isAI = p.isAI := by
  unfold groundStage; split <;> rfl

@[simp] theorem groundStage_aiAvoidTimer (p : Player) : (groundStage p).aiAvoidTimer = p.aiAvoidTimer := by
  unfold groundStage; split <;> rfl

@[simp] theorem tiltStage_position (p : Player) : (tiltStage p).position = p.position := rfl

@[simp] theorem tiltStage_velocityX (p : Player) : (tiltStage p).velocityX = p.velocityX := rfl

@[simp] theorem tiltStage_velocityY (p : Player) : (tiltStage p).velocityY = p.velocityY := rfl

@[simp] theorem tiltStage_velocityZ (p : Player) : (tiltStage p).velocityZ = p.velocityZ := rfl

@[simp] theorem tiltStage_isDead (p : Player) : (tiltStage p).isDead = p.isDead := rfl

@[simp] theorem tiltStage_isAI (p : Player) : (tiltStage p).isAI = p.isAI := rfl

@[simp] theorem tiltStage_aiAvoidTimer (p : Player) : (tiltStage p).aiAvoidTimer = p.aiAvoidTimer := rfl

@[simp] theorem fenceCheckStep_position (id : String) (p : Player) : (fenceCheckStep id p).1.position = p.position := by
  unfold fenceCheckStep
  dsimp only
  repeat' split
  all_goals rfl

@[simp] theorem fenceCheckStep_velocityX (id : String) (p : Player) : (fenceCheckStep id p).1.velocityX = p.velocityX := by
  unfold fenceCheckStep
  dsimp only
  repeat' split
  all_goals rfl

@[simp] theorem fenceCheckStep_velocityY (id : String) (p : Player) : (fenceCheckStep id p).1.velocityY = p.velocityY := by
  unfold fenceCheckStep
  dsimp only
  repeat' split
  all_goals rfl

@[simp] theorem fenceCheckStep_velocityZ (id : String) (p : Player) : (fenceCheckStep id p).1.velocityZ = p.velocityZ := by
  unfold fenceCheckStep
  dsimp only
  repeat' split
  all_goals rfl

@[simp] theorem fenceCheckStep_isAI (id : String) (p : Player) : (fenceCheckStep id p).1.isAI = p.isAI := by
  unfold fenceCheckStep
  dsimp only
  repeat' split
  all_goals rfl

@[simp] theorem fenceCheckStep_aiAvoidTimer (id : String) (p : Player) : (fenceCheckStep id p).1.aiAvoidTimer = p.aiAvoidTimer := by
  unfold fenceCheckStep
  dsimp only
  repeat' split
  all_goals rfl

@[simp] theorem tiltCheckStep_position (id : String) (p : Player) : (tiltCheckStep id p).1.position = p.position := by
  unfold tiltCheckStep
  dsimp only
  repeat' split
  all_goals rfl

@[simp] theorem tiltCheckStep_velocityX (id : String) (p : Player) : (tiltCheckStep id p).1.velocityX = p.velocityX := by
  unfold tiltCheckStep
  dsimp only
  repeat' split
  all_goals rfl

@[simp] theorem tiltCheckStep_velocityY (id : String) (p : Player) : (tiltCheckStep id p).1.velocityY = p.velocityY := by
  unfold tiltCheckStep
  dsimp only
  repeat' split
  all_goals rfl

@[simp] theorem tiltCheckStep_velocityZ (id : String) (p : Player) : (tiltCheckStep id p).1.velocityZ = p.velocityZ := by
  unfold tiltCheckStep
  dsimp only
  repeat' split
  all_goals rfl

@[simp] theorem tiltCheckStep_isAI (id : String) (p : Player) : (tiltCheckStep id p).1.isAI = p.isAI := by
  unfold tiltCheckStep
  dsimp only
  repeat' split
  all_goals rfl

@[simp] theorem tiltCheckStep_aiAvoidTimer (id : String) (p : Player) : (tiltCheckStep id p).1.aiAvoidTimer = p.aiAvoidTimer := by
  unfold tiltCheckStep
  dsimp only
  repeat' split
  all_goals rfl

@[simp] theorem deadStep_isAI (r1 r2 r3 : ℝ) (p : Player) : (deadStep r1 r2 r3 p).isAI = p.isAI := by
  unfold deadStep
  dsimp only
  repeat' split
  all_goals rfl

@[simp] theorem deadStep_aiAvoidTimer (r1 r2 r3 : ℝ) (p : Player) : (deadStep r1 r2 r3 p).aiAvoidTimer = p.aiAvoidTimer := by
  unfold deadStep
  dsimp only
  repeat' split
  all_goals rfl

@[simp] theorem aiBehaviorStage_position (rng : AIRng) (o : List Player) (s : Player) : (aiBehaviorStage rng o s).position = s.position := by
  unfold aiBehaviorStage
  dsimp only
  repeat' split
  all_goals rfl

@[simp] theorem aiBehaviorStage_velocityX (rng : AIRng) (o : List Player) (s : Player) : (aiBehaviorStage rng o s).velocityX = s.velocityX := by
  unfold aiBehaviorStage
  dsimp only
  repeat' split
  all_goals rfl

@[simp] theorem aiBehaviorStage_velocityY (rng : AIRng) (o : List Player) (s : Player) : (aiBehaviorStage rng o s).velocityY = s.velocityY := by
  unfold aiBehaviorStage
  dsimp only
  repeat' split
  all_goals rfl

@[simp] theorem aiBehaviorStage_velocityZ (rng : AIRng) (o : List Player) (s : Player) : (aiBehaviorStage rng o s).velocityZ = s.velocityZ := by
  unfold aiBehaviorStage
  dsimp only
  repeat' split
  all_goals rfl

@[simp] theorem aiBehaviorStage_isDead (rng : AIRng) (o : List Player) (s : Player) : (aiBehaviorStage rng o s).isDead = s.isDead := by
  unfold aiBehaviorStage
  dsimp only
  repeat' split
  all_goals rfl

@[simp] theorem aiBehaviorStage_isAI (rng : AIRng) (o : List Player) (s : Player) : (aiBehaviorStage rng o s).isAI = s.isAI := by
  unfold aiBehaviorStage
  dsimp only
  repeat' split
  all_goals rfl

@[simp] theorem aiBehaviorStage_aiAvoidTimer (rng : AIRng) (o : List Player) (s : Player) : (aiBehaviorStage rng o s).aiAvoidTimer = s.aiAvoidTimer := by
  unfold aiBehaviorStage
  dsimp only
  repeat' split
  all_goals rfl

@[simp] theorem aiWalkStage_position (rng : AIRng) (s : Player) : (aiWalkStage rng s).position = s.position := by
  unfold aiWalkStage
  dsimp only
  repeat' split
  all_goals rfl

@[simp] theorem aiWalkStage_velocityX (rng : AIRng) (s : Player) : (aiWalkStage rng s).velocityX = s.velocityX := by
  unfold aiWalkStage
  dsimp only
  repeat' split
  all_goals rfl

@[simp] theorem aiWalkStage_velocityY (rng : AIRng) (s : Player) : (aiWalkStage rng s).velocityY = s.velocityY := by
  unfold aiWalkStage
  dsimp only
  repeat' split
  all_goals rfl

@[simp] theorem aiWalkStage_velocityZ (rng : AIRng) (s : Player) : (aiWalkStage rng s).velocityZ = s.velocityZ := by
  unfold aiWalkStage
  dsimp only
  repeat' split
  all_goals rfl

@[simp] theorem aiWalkStage_isDead (rng : AIRng) (s : Player) : (aiWalkStage rng s).isDead = s.isDead := by
  unfold aiWalkStage
  dsimp only
  repeat' split
  all_goals rfl

@[simp] theorem aiWalkStage_isAI (rng : AIRng) (s : Player) : (aiWalkStage rng s).isAI = s.isAI := by
  unfold aiWalkStage
  dsimp only
  repeat' split
  all_goals rfl

@[simp] theorem aiWalkStage_aiAvoidTimer (rng : AIRng) (s : Player) : (aiWalkStage rng s).aiAvoidTimer = s.aiAvoidTimer := by
  unfold aiWalkStage
  dsimp only
  repeat' split
  all_goals rfl

@[simp] theorem aiHeadingStage_position (s : Player) : (aiHeadingStage s).position = s.position := rfl

@[simp] theorem aiHeadingStage_velocityY (s : Player) : (aiHeadingStage s).velocityY = s.velocityY := rfl

@[simp] theorem aiHeadingStage_isDead (s : Player) : (aiHeadingStage s).isDead = s.isDead := rfl

@[simp] theorem aiHeadingStage_isAI (s : Player) : (aiHeadingStage s).isAI = s.isAI := rfl

@[simp] theorem aiHeadingStage_aiAvoidTimer (s : Player) : (aiHeadingStage s).aiAvoidTimer = s.aiAvoidTimer := rfl

@[simp] theorem turnStage_personality (i : InputRecord) (p : Player) : (turnStage i p).personality = p.personality := rfl

@[simp] theorem thrustStage_personality (i : InputRecord) (p : Player) : (thrustStage i p).personality = p.personality := rfl

@[simp] theorem frictionStage_personality (p : Player) : (frictionStage p).personality = p.personality := rfl

@[simp] theorem clampStage_personality (p : Player) : (clampStage p).personality = p.personality := rfl

@[simp] theorem integrateStage_personality (p : Player) : (integrateStage p).personality = p.personality := rfl

/-! ## Aggregate preservation lemmas. -/

@[simp] theorem physicsStep_isDead (i : InputRecord) (p : Player) : (physicsStep i p).isDead = p.isDead := by
  simp [physicsStep]

@[simp] theorem physicsStep_isAI (i : InputRecord) (p : Player) : (physicsStep i p).isAI = p.isAI := by
  simp [physicsStep]

@[simp] theorem physicsStep_aiAvoidTimer (i : InputRecord) (p : Player) : (physicsStep i p).aiAvoidTimer = p.aiAvoidTimer := by
  simp [physicsStep]

@[simp] theorem lifecycleStep_position (id : String) (p : Player) : (lifecycleStep id p).1.position = p.position := by
  simp [lifecycleStep]

@[simp] theorem lifecycleStep_velocityX (id : String) (p : Player) : (lifecycleStep id p).1.velocityX = p.velocityX := by
  simp [lifecycleStep]

@[simp] theorem lifecycleStep_velocityY (id : String) (p : Player) : (lifecycleStep id p).1.velocityY = p.velocityY := by
  simp [lifecycleStep]

@[simp] theorem lifecycleStep_velocityZ (id : String) (p : Player) : (lifecycleStep id p).1.velocityZ = p.velocityZ := by
  simp [lifecycleStep]

@[simp] theorem lifecycleStep_isAI (id : String) (p : Player) : (lifecycleStep id p).1.isAI = p.isAI := by
  simp [lifecycleStep]

@[simp] theorem lifecycleStep_aiAvoidTimer (id : String) (p : Player) : (lifecycleStep id p).1.aiAvoidTimer = p.aiAvoidTimer := by
  simp [lifecycleStep]

@[simp] theorem aiStep_position (rng : AIRng) (o : List Player) (s : Player) : (aiStep rng o s).position = s.position := by
  simp [aiStep]

@[simp] theorem aiStep_velocityY (rng : AIRng) (o : List Player) (s : Player) : (aiStep rng o s).velocityY = s.velocityY := by
  simp [aiStep]

@[simp] theorem aiStep_isDead (rng : AIRng) (o : List Player) (s : Player) : (aiStep rng o s).isDead = s.isDead := by
  simp [aiStep]

@[simp] theorem aiStep_isAI (rng : AIRng) (o : List Player) (s : Player) : (aiStep rng o s).isAI = s.isAI := by
  simp [aiStep]

@[simp] theorem aiStep_aiAvoidTimer (rng : AIRng) (o : List Player) (s : Player) : (aiStep rng o s).aiAvoidTimer = s.aiAvoidTimer := by
  simp [aiStep]

/-- The scare override is the identity whenever the entity is not a
timid sheep. -/
theorem scareOverrideStage_of_pers (p : Player) (h : ¬ p.personality = some .timid) :
    scareOverrideStage p = p := by
  unfold scareOverrideStage
  rw [if_neg]
  rintro ⟨h1, -, -⟩
  exact h h1

/-! ## Claim theorems. -/

/-- Claim C7: the anisotropic-friction step of the integrator (lines
162-176) coincides with the spec's reference definition: forward/right
decomposition on the basis `(sin yaw, cos yaw)` / `(cos yaw, -sin yaw)`,
scaling by `FRICTION` resp. `1 - (1 - FRICTION) *
SIDEWAYS_FRICTION_MULTIPLIER`, and recomposition on the same basis. -/
theorem friction_matches_spec (p : Player) :
    (frictionStage p).velocityX = (specAnisotropicFriction p.rotation p.velocityX p.velocityZ).1 ∧
    (frictionStage p).velocityZ = (specAnisotropicFriction p.rotation p.velocityX p.velocityZ).2 :=
  ⟨rfl, rfl⟩

/-- Claim C4: the tilt-death check never fires for a timid entity whose
scare window is open (`scaredTimer > 0`), grounded or airborne; and the
tilt-death check is in any case only evaluated while `position.y <=
GROUND_Y + 0.001` — above that height it is a no-op for every entity. -/
theorem scared_timid_tilt_immune :
    (∀ (id : String) (p : Player), p.personality = some .timid → p.scaredTimer > 0 →
      tiltCheckStep id p = (p, [])) ∧
    (∀ (id : String) (p : Player), p.position.y > GROUND_Y + 0.001 →
      tiltCheckStep id p = (p, [])) := by
  constructor
  · intro id p hpers hscared
    unfold tiltCheckStep
    dsimp only
    split
    · rw [if_neg]
      rintro ⟨hns, -, -⟩
      exact hns ⟨hpers, hscared⟩
    · rfl
  · intro id p hy
    unfold tiltCheckStep
    dsimp only
    rw [if_neg (not_le.mpr hy)]

/-- Witness for C4: a scared timid sheep on the ground with huge tilt is
not killed by the tilt check, and neither is an airborne entity. -/
theorem scared_timid_tilt_immune_witness :
    tiltCheckStep ("s") { cexSheep with personality := some .timid, scaredTimer := 1, rotationX := 3 } =
      ({ cexSheep with personality := some .timid, scaredTimer := 1, rotationX := 3 }, []) ∧
    tiltCheckStep ("t") { cexSheep with position := ⟨0, 2, 0⟩, rotationX := 3 } =
      ({ cexSheep with position := ⟨0, 2, 0⟩, rotationX := 3 }, []) :=
  ⟨scared_timid_tilt_immune.1 ("s") _ rfl (by norm_num),
   scared_timid_tilt_immune.2 ("t") _ (by norm_num [GROUND_Y])⟩

/-- Claim C6: a tick leaves a dead entity that stays dead entirely
unchanged except for the respawn-timer decrement by `1 / TICK_RATE`,
emits no event for it, and skips both the physics integrator and the AI
controller. -/
theorem dead_entity_frozen (rng : TickRng) (input : InputRecord) (others : List Player)
    (id : String) (p : Player) (hd : p.isDead = true)
    (ht : p.respawnTimer - 1 / TICK_RATE > 0) :
    tickEntity rng input others id p = ({ p with respawnTimer := p.respawnTimer - 1 / TICK_RATE }, []) := by
  unfold tickEntity
  rw [if_pos hd]
  dsimp only
  unfold deadStep
  dsimp only
  rw [if_neg (not_le.mpr ht)]
  rw [if_neg]
  rintro ⟨-, hnd⟩
  exact hnd hd

/-- Witness for C6: a freshly dead entity with 1 s left just counts
down. -/
theorem dead_entity_frozen_witness :
    tickEntity rng0 inp0 [] "w0" { cexSheep with isDead := true, respawnTimer := 1 } =
      ({ cexSheep with isDead := true, respawnTimer := 1 - 1 / TICK_RATE }, []) :=
  dead_entity_frozen rng0 inp0 [] "w0" _ rfl (by norm_num [TICK_RATE])

/-- Claim C5: when a dead entity's decremented respawn timer reaches 0,
the respawn branch zeroes `angularVelocity` (yaw rate), all three
velocity components, both tilts and both tilt rates, clears `isDead`,
draws a fresh random yaw, and repositions the entity to its stored
spawn point (lifted to ground height; `RESPAWN_AT_SPAWN` is `true`) or,
when no spawn point is present, to a uniform-random point of the spawn
disk at ground height. -/
theorem respawn_resets (r1 r2 r3 : ℝ) (p : Player) (_hd : p.isDead = true)
    (ht : p.respawnTimer - 1 / TICK_RATE ≤ 0) :
    (deadStep r1 r2 r3 p).angularVelocity = 0 ∧
    (deadStep r1 r2 r3 p).velocityX = 0 ∧
    (deadStep r1 r2 r3 p).velocityY = 0 ∧
    (deadStep r1 r2 r3 p).velocityZ = 0 ∧
    (deadStep r1 r2 r3 p).rotationX = 0 ∧
    (deadStep r1 r2 r3 p).rotationZ = 0 ∧
    (deadStep r1 r2 r3 p).angularVelocityX = 0 ∧
    (deadStep r1 r2 r3 p).angularVelocityZ = 0 ∧
    (deadStep r1 r2 r3 p).isDead = false ∧
    (deadStep r1 r2 r3 p).rotation = r3 * Real.pi * 2 ∧
    (deadStep r1 r2 r3 p).position = (match p.spawn with
      | some sp => { sp with y := GROUND_Y }
      | none => getRandomSpawn r1 r2) := by
  unfold deadStep
  dsimp only
  rw [if_pos ht]
  refine ⟨rfl, rfl, rfl, rfl, rfl, rfl, rfl, rfl, rfl, rfl, ?_⟩
  dsimp only
  rw [if_pos (show RESPAWN_AT_SPAWN = true from rfl)]

/-- Witness for C5: a dead player sheep with 0.01 s left respawns reset
at its stored spawn point. -/
theorem respawn_resets_witness :
    (deadStep 0 0 0 { cexSheep with isDead := true, respawnTimer := 0.01, spawn := some ⟨3, 0.6, 4⟩ }).velocityX = 0 ∧
    (deadStep 0 0 0 { cexSheep with isDead := true, respawnTimer := 0.01, spawn := some ⟨3, 0.6, 4⟩ }).isDead = false ∧
    (deadStep 0 0 0 { cexSheep with isDead := true, respawnTimer := 0.01, spawn := some ⟨3, 0.6, 4⟩ }).position =
      { x := 3, y := GROUND_Y, z := 4 } := by
  have h := respawn_resets 0 0 0
    { cexSheep with isDead := true, respawnTimer := 0.01, spawn := some ⟨3, 0.6, 4⟩ }
    rfl (by norm_num [TICK_RATE])
  exact ⟨h.2.1, h.2.2.2.2.2.2.2.2.1, h.2.2.2.2.2.2.2.2.2.2⟩

/-! ## Speed bound machinery for C1. -/

theorem clampStage_planarSpeed (p : Player) : planarSpeed (clampStage p) ≤ MAX_SPEED := by
  unfold clampStage planarSpeed
  dsimp only
  by_cases hlo : Real.sqrt (p.velocityX ^ 2 + p.velocityZ ^ 2) < 0.01
  · rw [if_pos hlo, if_pos hlo]
    have h0 : ((0 : ℝ) ^ 2 + (0 : ℝ) ^ 2) = 0 := by norm_num
    rw [h0, Real.sqrt_zero]
    norm_num [MAX_SPEED]
  · rw [if_neg hlo, if_neg hlo]
    by_cases hhi : Real.sqrt (p.velocityX ^ 2 + p.velocityZ ^ 2) > MAX_SPEED
    · rw [if_pos hhi, if_pos hhi]
      have hspos : 0 < Real.sqrt (p.velocityX ^ 2 + p.velocityZ ^ 2) :=
        lt_trans (by norm_num [MAX_SPEED]) hhi
      have hfac : 0 ≤ MAX_SPEED / Real.sqrt (p.velocityX ^ 2 + p.velocityZ ^ 2) :=
        le_of_lt (div_pos (by norm_num [MAX_SPEED]) hspos)
      have hsq : (p.velocityX * (MAX_SPEED / Real.sqrt (p.velocityX ^ 2 + p.velocityZ ^ 2))) ^ 2 +
          (p.velocityZ * (MAX_SPEED / Real.sqrt (p.velocityX ^ 2 + p.velocityZ ^ 2))) ^ 2 =
          (MAX_SPEED / Real.sqrt (p.velocityX ^ 2 + p.velocityZ ^ 2)) ^ 2 *
            (p.velocityX ^ 2 + p.velocityZ ^ 2) := by ring
      rw [hsq, Real.sqrt_mul (sq_nonneg _), Real.sqrt_sq hfac,
        div_mul_cancel₀ _ (ne_of_gt hspos)]
    · rw [if_neg hhi, if_neg hhi]
      exact le_of_not_lt hhi

theorem scareOverrideStage_planarSpeed (p : Player) :
    planarSpeed (scareOverrideStage p) ≤ planarSpeed p := by
  unfold scareOverrideStage
  split
  · unfold planarSpeed
    dsimp only
    have h0 : ((0 : ℝ) ^ 2 + (0 : ℝ) ^ 2) = 0 := by norm_num
    rw [h0, Real.sqrt_zero]
    exact Real.sqrt_nonneg _
  · exact le_refl _

theorem physicsStep_planarSpeed (i : InputRecord) (p : Player) :
    planarSpeed (physicsStep i p) ≤ MAX_SPEED := by
  unfold physicsStep
  have h1 : planarSpeed (tiltStage (groundStage (scareOverrideStage (integrateStage
      (clampStage (frictionStage (thrustStage i (turnStage i p)))))))) =
      planarSpeed (scareOverrideStage (integrateStage
      (clampStage (frictionStage (thrustStage i (turnStage i p)))))) := by
    unfold planarSpeed
    rw [tiltStage_velocityX, tiltStage_velocityZ, groundStage_velocityX, groundStage_velocityZ]
  have h2 : planarSpeed (integrateStage (clampStage (frictionStage (thrustStage i (turnStage i p))))) =
      planarSpeed (clampStage (frictionStage (thrustStage i (turnStage i p)))) := by
    unfold planarSpeed
    rw [integrateStage_velocityX, integrateStage_velocityZ]
  rw [h1]
  exact le_trans (scareOverrideStage_planarSpeed _) (h2 ▸ clampStage_planarSpeed _)

/-- Triangle inequality for the planar norm, through `Complex.abs`. -/
theorem sqrt_sq_add_sq_add_le (a b c d : ℝ) :
    Real.sqrt ((a + c) ^ 2 + (b + d) ^ 2) ≤
      Real.sqrt (a ^ 2 + b ^ 2) + Real.sqrt (c ^ 2 + d ^ 2) := by
  have habs : ∀ x y : ℝ, Real.sqrt (x ^ 2 + y ^ 2) = Complex.abs ⟨x, y⟩ := by
    intro x y
    rw [Complex.abs_apply, Complex.normSq_mk]
    congr 1
    ring
  rw [habs, habs, habs]
  have hadd : (⟨a + c, b + d⟩ : ℂ) = ⟨a, b⟩ + ⟨c, d⟩ := by
    apply Complex.ext <;> simp
  rw [hadd]
  exact Complex.abs.add_le _ _

/-- The forward thrust added by the AI heading stage has norm
`ACCELERATION * moveSpeed`, bounded by `ACCELERATION * 1.1`. -/
theorem thrust_planar_bound (vx vz rot ms : ℝ) (h0 : 0 ≤ ms) (h1 : ms ≤ 1.1) :
    Real.sqrt ((vx + Real.sin rot * ACCELERATION * ms) ^ 2 +
        (vz + Real.cos rot * ACCELERATION * ms) ^ 2) ≤
      Real.sqrt (vx ^ 2 + vz ^ 2) + ACCELERATION * 1.1 := by
  refine le_trans (sqrt_sq_add_sq_add_le _ _ _ _) ?_
  have key : (Real.sin rot * ACCELERATION * ms) ^ 2 + (Real.cos rot * ACCELERATION * ms) ^ 2 =
      (Real.sin rot ^ 2 + Real.cos rot ^ 2) * (ACCELERATION * ms) ^ 2 := by ring
  rw [key, Real.sin_sq_add_cos_sq, one_mul,
    Real.sqrt_sq (mul_nonneg (by norm_num [ACCELERATION]) h0)]
  have : ACCELERATION * ms ≤ ACCELERATION * 1.1 := by
    apply mul_le_mul_of_nonneg_left h1
    norm_num [ACCELERATION]
  linarith

theorem aiHeadingStage_planarSpeed (s : Player) :
    planarSpeed (aiHeadingStage s) ≤ planarSpeed s + ACCELERATION * 1.1 := by
  unfold aiHeadingStage planarSpeed
  dsimp only
  apply thrust_planar_bound
  · rcases s.personality with _ | pers
    · norm_num
    · rcases pers <;> norm_num
  · rcases s.personality with _ | pers
    · norm_num
    · rcases pers <;> norm_num

theorem aiStep_planarSpeed (rng : AIRng) (o : List Player) (s : Player) :
    planarSpeed (aiStep rng o s) ≤ planarSpeed s + ACCELERATION * 1.1 := by
  unfold aiStep
  refine le_trans (aiHeadingStage_planarSpeed _) ?_
  have h : planarSpeed (aiWalkStage rng (aiBehaviorStage rng o s)) = planarSpeed s := by
    unfold planarSpeed
    rw [aiWalkStage_velocityX, aiWalkStage_velocityZ,
      aiBehaviorStage_velocityX, aiBehaviorStage_velocityZ]
  rw [h]

/-- Claim C1: after the integrator's speed clamp the planar speed of
every entity is at most `MAX_SPEED`; and for every entity alive at the
start of a tick its planar speed at the end of the tick (the value the
state broadcast serializes) is at most `MAX_SPEED + ACCELERATION * 1.1`
— the AI controller may add up to `ACCELERATION * 1.1` of forward
thrust after the clamp has already run. -/
theorem speed_clamp_bound :
    (∀ (input : InputRecord) (p : Player), planarSpeed (physicsStep input p) ≤ MAX_SPEED) ∧
    (∀ (rng : TickRng) (input : InputRecord) (others : List Player) (id : String) (p : Player),
      p.isDead = false →
      planarSpeed (tickEntity rng input others id p).1 ≤ MAX_SPEED + ACCELERATION * 1.1) := by
  constructor
  · exact physicsStep_planarSpeed
  · intro rng input others id p hAlive
    unfold tickEntity
    rw [if_neg (by rw [hAlive]; exact Bool.false_ne_true)]
    dsimp only
    have hlc : planarSpeed (lifecycleStep id (physicsStep input p)).1 ≤ MAX_SPEED := by
      have h : planarSpeed (lifecycleStep id (physicsStep input p)).1 =
          planarSpeed (physicsStep input p) := by
        unfold planarSpeed
        rw [lifecycleStep_velocityX, lifecycleStep_velocityZ]
      rw [h]
      exact physicsStep_planarSpeed input p
    split
    · refine le_trans (aiStep_planarSpeed _ _ _) ?_
      linarith
    · have : (0 : ℝ) ≤ ACCELERATION * 1.1 := by norm_num [ACCELERATION]
      linarith

/-- Witness for C1: the tick bound evaluated on a concrete alive AI
sheep. -/
theorem speed_clamp_bound_witness :
    planarSpeed (tickEntity rng0 inp0 [] "w1" cexSheep).1 ≤ MAX_SPEED + ACCELERATION * 1.1 :=
  speed_clamp_bound.2 rng0 inp0 [] "w1" cexSheep rfl

/-! ## Ground invariant machinery for C9. -/

theorem belowGround_mid (input : InputRecord) (p : Player)
    (hy : p.position.y = GROUND_Y) (hv : p.velocityY = 0) :
    (integrateStage (clampStage (frictionStage (thrustStage input
      (turnStage input p))))).position.y < GROUND_Y := by
  rw [integrateStage_y, clampStage_position, frictionStage_position, thrustStage_position,
    turnStage_position, clampStage_velocityY, frictionStage_velocityY, thrustStage_velocityY,
    turnStage_velocityY, hy, hv]
  norm_num [GROUND_Y, GRAVITY, TICK_RATE]

theorem groundStage_below (q : Player) (h : q.position.y < GROUND_Y) :
    (groundStage q).position.y = GROUND_Y ∧ (groundStage q).velocityY = 0 := by
  unfold groundStage
  rw [if_pos h]
  exact ⟨rfl, rfl⟩

theorem physicsStep_grounded (input : InputRecord) (p : Player)
    (hy : p.position.y = GROUND_Y) (hv : p.velocityY = 0) :
    (physicsStep input p).position.y = GROUND_Y ∧ (physicsStep input p).velocityY = 0 := by
  unfold physicsStep
  have hmid := belowGround_mid input p hy hv
  have hscare : (scareOverrideStage (integrateStage (clampStage (frictionStage (thrustStage input
      (turnStage input p)))))).position.y < GROUND_Y := by
    rw [scareOverrideStage_position]
    exact hmid
  have hg := groundStage_below _ hscare
  constructor
  · rw [tiltStage_position]
    exact hg.1
  · rw [tiltStage_velocityY]
    exact hg.2

theorem deadStep_y (r1 r2 r3 : ℝ) (p : Player) (hy : p.position.y = GROUND_Y) :
    (deadStep r1 r2 r3 p).position.y = GROUND_Y := by
  unfold deadStep
  dsimp only
  repeat' split
  all_goals first
  | rfl
  | exact hy

theorem deadStep_vy (r1 r2 r3 : ℝ) (p : Player) (hv : p.velocityY = 0) :
    (deadStep r1 r2 r3 p).velocityY = 0 := by
  unfold deadStep
  dsimp only
  repeat' split
  all_goals first
  | rfl
  | exact hv

theorem tickEntity_grounded (rng : TickRng) (input : InputRecord) (others : List Player)
    (id : String) (p : Player) (hy : p.position.y = GROUND_Y) (hv : p.velocityY = 0) :
    (tickEntity rng input others id p).1.position.y = GROUND_Y ∧
    (tickEntity rng input others id p).1.velocityY = 0 := by
  unfold tickEntity
  split
  · dsimp only
    constructor
    · split
      · rw [aiStep_position]
        exact deadStep_y _ _ _ _ hy
      · exact deadStep_y _ _ _ _ hy
    · split
      · rw [aiStep_velocityY]
        exact deadStep_vy _ _ _ _ hv
      · exact deadStep_vy _ _ _ _ hv
  · dsimp only
    have hph := physicsStep_grounded input p hy hv
    constructor
    · split
      · rw [aiStep_position, lifecycleStep_position]
        exact hph.1
      · rw [lifecycleStep_position]
        exact hph.1
    · split
      · rw [aiStep_velocityY, lifecycleStep_velocityY]
        exact hph.2
      · rw [lifecycleStep_velocityY]
        exact hph.2

/-- Claim C9 (implicit): every reachable entity state is exactly at
ground height with zero vertical velocity, so every alive entity ends
every tick grounded; consequently, right after position integration the
entity sits strictly below ground level, and the airborne branch of the
timid scare override (which requires `position.y > GROUND_Y` at that
point) never fires — the override is the identity on every reachable
state. -/
theorem grounded_every_tick :
    ∀ p : Player, Reachable p →
      (p.position.y = GROUND_Y ∧ p.velocityY = 0) ∧
      ∀ input : InputRecord,
        (integrateStage (clampStage (frictionStage (thrustStage input
          (turnStage input p))))).position.y < GROUND_Y ∧
        scareOverrideStage (integrateStage (clampStage (frictionStage (thrustStage input
          (turnStage input p))))) =
          integrateStage (clampStage (frictionStage (thrustStage input (turnStage input p)))) := by
  have inv : ∀ p : Player, Reachable p → p.position.y = GROUND_Y ∧ p.velocityY = 0 := by
    intro p h
    induction h with
    | player r1 r2 r3 => exact ⟨rfl, rfl⟩
    | ai r1 r2 r3 r4 pers => exact ⟨rfl, rfl⟩
    | step rng input others id q hq ih =>
        exact tickEntity_grounded rng input others id q ih.1 ih.2
  intro p h
  refine ⟨inv p h, ?_⟩
  intro input
  have hmid := belowGround_mid input p (inv p h).1 (inv p h).2
  refine ⟨hmid, ?_⟩
  unfold scareOverrideStage
  rw [if_neg]
  rintro ⟨-, -, hgt⟩
  exact lt_asymm hmid hgt

/-- Witness for C9: the invariant and the dead scare-override branch on
a concrete freshly created AI sheep. -/
theorem grounded_every_tick_witness :
    ((createAISheep 0 0 0 0 .timid).position.y = GROUND_Y ∧
      (createAISheep 0 0 0 0 .timid).velocityY = 0) ∧
    scareOverrideStage (integrateStage (clampStage (frictionStage (thrustStage inp0
      (turnStage inp0 (createAISheep 0 0 0 0 .timid)))))) =
      integrateStage (clampStage (frictionStage (thrustStage inp0
        (turnStage inp0 (createAISheep 0 0 0 0 .timid))))) :=
  ⟨(grounded_every_tick _ (Reachable.ai 0 0 0 0 .timid)).1,
   ((grounded_every_tick _ (Reachable.ai 0 0 0 0 .timid)).2 inp0).2⟩

/-! ## aiAvoidTimer machinery for C10. -/

theorem tickEntity_aiAvoidTimer (rng : TickRng) (input : InputRecord) (others : List Player)
    (id : String) (p : Player) :
    (tickEntity rng input others id p).1.aiAvoidTimer = p.aiAvoidTimer := by
  unfold tickEntity
  split
  · dsimp only
    split
    · rw [aiStep_aiAvoidTimer, deadStep_aiAvoidTimer]
    · rw [deadStep_aiAvoidTimer]
  · dsimp only
    split
    · rw [aiStep_aiAvoidTimer, lifecycleStep_aiAvoidTimer, physicsStep_aiAvoidTimer]
    · rw [lifecycleStep_aiAvoidTimer, physicsStep_aiAvoidTimer]

theorem tickEntity_isAI (rng : TickRng) (input : InputRecord) (others : List Player)
    (id : String) (p : Player) :
    (tickEntity rng input others id p).1.isAI = p.isAI := by
  unfold tickEntity
  split
  · dsimp only
    split
    · rw [aiStep_isAI, deadStep_isAI]
    · rw [deadStep_isAI]
  · dsimp only
    split
    · rw [aiStep_isAI, lifecycleStep_isAI, physicsStep_isAI]
    · rw [lifecycleStep_isAI, physicsStep_isAI]

/-- Claim C10 (implicit): every reachable AI entity has
`aiAvoidTimer = 0` — it is initialized to 0 and never reassigned — so
the timid-only extra conjunct in the random-walk guard is always
satisfied and the walk stage behaves exactly like the uniform guard
(`aiTimer <= 0` alone) that every other personality uses. -/
theorem aiAvoidTimer_always_zero :
    (∀ p : Player, Reachable p → p.isAI = true → p.aiAvoidTimer = 0) ∧
    (∀ (rng : AIRng) (s : Player), s.aiAvoidTimer = 0 →
      aiWalkStage rng s = aiWalkStageUniform rng s) := by
  constructor
  · intro p h
    induction h with
    | player r1 r2 r3 => intro _; rfl
    | ai r1 r2 r3 r4 pers => intro _; rfl
    | step rng input others id q hq ih =>
        intro hAI
        rw [tickEntity_aiAvoidTimer]
        exact ih (by rw [tickEntity_isAI] at hAI; exact hAI)
  · intro rng s h0
    unfold aiWalkStage aiWalkStageUniform
    dsimp only
    refine if_congr ?_ rfl rfl
    constructor
    · exact fun h => h.1
    · intro h
      exact ⟨h, Or.inr (le_of_eq h0)⟩

/-- Witness for C10: a freshly created brave sheep has a zero avoid
timer, and the walk stage on a concrete sheep with zero avoid timer
agrees with the uniform-guard version. -/
theorem aiAvoidTimer_always_zero_witness :
    (createAISheep 0 0 0 0 .brave).aiAvoidTimer = 0 ∧
    aiWalkStage rng0.ai cexSheep = aiWalkStageUniform rng0.ai cexSheep :=
  ⟨aiAvoidTimer_always_zero.1 _ (Reachable.ai 0 0 0 0 .brave) rfl,
   aiAvoidTimer_always_zero.2 rng0.ai cexSheep rfl⟩

/-- Claim C3: an alive entity whose planar distance from the centre is
at least `FENCE_RADIUS` when the death checks run is marked dead with
`respawnTimer = RESPAWN_TIME` (3.0) and exactly one `death` event
`{id, position}` is emitted; and a tick never emits any death event for
an entity that is dead at the start of the tick, so no further event
appears while one excursion's death persists. -/
theorem fence_death_event :
    (∀ (id : String) (q : Player), q.isDead = false →
      Real.sqrt (q.position.x ^ 2 + q.position.z ^ 2) ≥ FENCE_RADIUS →
      lifecycleStep id q =
        ({ q with isDead := true, respawnTimer := RESPAWN_TIME }, [⟨id, q.position⟩])) ∧
    (∀ (rng : TickRng) (input : InputRecord) (others : List Player) (id : String) (p : Player),
      p.isDead = true → (tickEntity rng input others id p).2 = []) := by
  constructor
  · intro id q hAlive hDist
    have htilt : ∀ (idt : String) (r : Player), r.isDead = true → tiltCheckStep idt r = (r, []) := by
      intro idt r hr
      unfold tiltCheckStep
      dsimp only
      split
      · rw [if_neg]
        rintro ⟨-, -, hnd⟩
        exact hnd hr
      · rfl
    unfold lifecycleStep
    dsimp only
    unfold fenceCheckStep
    dsimp only
    rw [if_pos hDist, if_pos (show ¬ q.isDead = true by rw [hAlive]; exact Bool.false_ne_true)]
    dsimp only
    rw [htilt id _ rfl]
    rfl
  · intro rng input others id p hDead
    unfold tickEntity
    rw [if_pos hDead]

/-- Witness for C3: an alive sheep at planar distance 100.5 dies with a
single event and a 3 s respawn timer, and a tick on a dead sheep emits
nothing. -/
theorem fence_death_event_witness :
    lifecycleStep ("e") { cexSheep with position := ⟨100.5, GROUND_Y, 0⟩ } =
      ({ { cexSheep with position := ⟨100.5, GROUND_Y, 0⟩ } with
          isDead := true, respawnTimer := RESPAWN_TIME },
        [⟨"e", ({ cexSheep with position := ⟨100.5, GROUND_Y, 0⟩ } : Player).position⟩]) ∧
    (tickEntity rng0 inp0 [] "e" { cexSheep with isDead := true, respawnTimer := 2 }).2 = [] := by
  constructor
  · apply fence_death_event.1 ("e") _ rfl
    have h1 : ((100.5 : ℝ) ^ 2 + (0 : ℝ) ^ 2) = 100.5 ^ 2 := by norm_num
    show Real.sqrt ((100.5 : ℝ) ^ 2 + (0 : ℝ) ^ 2) ≥ FENCE_RADIUS
    rw [h1, Real.sqrt_sq (by norm_num : (0 : ℝ) ≤ 100.5)]
    norm_num [FENCE_RADIUS]
  · exact fence_death_event.2 rng0 inp0 [] "e" _ rfl

/-- Claim C8: a `JSON.parse` failure changes no input record; a
well-formed `input` message whose `key`/`pressed` fields have the wrong
types or whose key is not one of the four flags mutates nothing; and a
well-typed message with a known key sets exactly that one flag of the
sender's record, leaving the other three untouched. -/
theorem input_message_handling :
    (∀ ist : Option InputRecord, handleMessage none ist = ist) ∧
    (∀ (d : MsgData) (i : InputRecord),
      (∀ (k : String) (b : Bool), d.msgKey = some (.str k) → d.msgPressed = some (.jsbool b) →
        hasOwnProperty k = false) →
      handleMessage (some d) (some i) = some i) ∧
    (∀ (k : String) (b : Bool) (i : InputRecord), hasOwnProperty k = true →
      handleMessage (some ⟨some (.str ("input")), some (.str k), some (.jsbool b)⟩) (some i) =
        some (setFlag i k b)) ∧
    (∀ (i : InputRecord) (b : Bool),
      ((setFlag i ("w") b).w = b ∧ (setFlag i ("w") b).a = i.a ∧ (setFlag i ("w") b).s = i.s ∧
        (setFlag i ("w") b).d = i.d) ∧
      ((setFlag i ("a") b).a = b ∧ (setFlag i ("a") b).w = i.w ∧ (setFlag i ("a") b).s = i.s ∧
        (setFlag i ("a") b).d = i.d) ∧
      ((setFlag i ("s") b).s = b ∧ (setFlag i ("s") b).w = i.w ∧ (setFlag i ("s") b).a = i.a ∧
        (setFlag i ("s") b).d = i.d) ∧
      ((setFlag i ("d") b).d = b ∧ (setFlag i ("d") b).w = i.w ∧ (setFlag i ("d") b).a = i.a ∧
        (setFlag i ("d") b).s = i.s)) := by
  refine ⟨fun ist => rfl, ?_, ?_, ?_⟩
  · intro d i hbad
    unfold handleMessage
    dsimp only
    by_cases hty : d.msgType = some (.str ("input"))
    · rw [if_pos hty]
      split
      · next k b hk hp =>
          rw [hbad k b hk hp]
          simp
      · rfl
    · rw [if_neg hty]
  · intro k b i hk
    show (if (some (JsVal.str ("input")) : Option JsVal) = some (JsVal.str ("input")) then
        if hasOwnProperty k = true then some (setFlag i k b) else some i
      else some i) = some (setFlag i k b)
    rw [if_pos (show (some (JsVal.str ("input")) : Option JsVal) = some (JsVal.str ("input")) from rfl),
      if_pos hk]
  · intro i b
    refine ⟨⟨?_, ?_, ?_, ?_⟩, ⟨?_, ?_, ?_, ?_⟩, ⟨?_, ?_, ?_, ?_⟩, ⟨?_, ?_, ?_, ?_⟩⟩ <;>
      simp [setFlag]

/-- Witness for C8: a parse failure, an unknown-key input message and a
known-key input message on concrete records. -/
theorem input_message_handling_witness :
    handleMessage none (some ⟨true, false, false, false⟩) = some ⟨true, false, false, false⟩ ∧
    handleMessage (some ⟨some (.str ("input")), some (.str ("x")), some (.jsbool true)⟩)
      (some ⟨false, false, false, false⟩) = some ⟨false, false, false, false⟩ ∧
    handleMessage (some ⟨some (.str ("input")), some (.str ("a")), some (.jsbool true)⟩)
      (some ⟨false, false, false, false⟩) =
      some (setFlag ⟨false, false, false, false⟩ "a" true) :=
  ⟨input_message_handling.1 _,
   input_message_handling.2.1 _ _ (by
      intro k b hk hp
      injection hk with h1
      injection h1 with h2
      rw [← h2]
      decide),
   input_message_handling.2.2.1 ("a") true _ (by decide)⟩

/-! ## Personality-preservation lemmas for the AI pass. -/

@[simp] theorem aiBehaviorStage_personality (rng : AIRng) (o : List Player) (s : Player) : (aiBehaviorStage rng o s).personality = s.personality := by
  unfold aiBehaviorStage
  dsimp only
  repeat' split
  all_goals rfl

@[simp] theorem aiWalkStage_personality (rng : AIRng) (s : Player) : (aiWalkStage rng s).personality = s.personality := by
  unfold aiWalkStage
  dsimp only
  repeat' split
  all_goals rfl

@[simp] theorem aiHeadingStage_personality (s : Player) : (aiHeadingStage s).personality = s.personality := rfl

@[simp] theorem aiStep_personality (rng : AIRng) (o : List Player) (s : Player) : (aiStep rng o s).personality = s.personality := by
  simp [aiStep]

/-! ## Concrete one-tick evaluation on `cexSheep`, for C2. -/

theorem atan2_zero_one : atan2 0 1 = 0 := by
  unfold atan2
  have h1 : (⟨1, 0⟩ : ℂ) = 1 := by
    apply Complex.ext
    · simp
    · simp
  rw [h1, Complex.arg_one]

theorem turn_cex : turnStage inp0 cexSheep = cexSheep := by
  unfold turnStage
  dsimp only [inp0, cexSheep]
  norm_num [ANGULAR_FRICTION]

theorem thrust_cex : thrustStage inp0 cexSheep = cexSheep := by
  unfold thrustStage
  dsimp only [inp0, cexSheep]
  norm_num

theorem phys_cex : physicsStep inp0 cexSheep = cexSheep := by
  unfold physicsStep turnStage thrustStage frictionStage clampStage integrateStage
    scareOverrideStage groundStage tiltStage
  dsimp only [inp0, cexSheep]
  norm_num [ANGULAR_FRICTION, FRICTION, SIDEWAYS_FRICTION_MULTIPLIER, MAX_SPEED, GRAVITY,
    TICK_RATE, GROUND_Y, TILT_RECOVERY_FORCE, TILT_RECOVERY_DAMPING, Real.sin_zero,
    Real.cos_zero, Real.sqrt_zero, abs_zero]

theorem lc_cex (id : String) : lifecycleStep id cexSheep = (cexSheep, []) := by
  have hrad : 0 < TILT_DEATH_RAD := by
    unfold TILT_DEATH_RAD toRadians
    positivity
  unfold lifecycleStep fenceCheckStep tiltCheckStep
  dsimp only [cexSheep]
  norm_num [GROUND_Y, FENCE_RADIUS, Real.sqrt_zero, lt_asymm hrad, abs_zero]

theorem behavior_cex : aiBehaviorStage rng0.ai [] cexSheep = cexSheep := rfl

theorem walk_cex : aiWalkStage rng0.ai cexSheep = { cexSheep with aiTimer := 5 - 1 / TICK_RATE } := by
  unfold aiWalkStage
  dsimp only [cexSheep]
  rw [if_neg]
  rintro ⟨h, -⟩
  norm_num [TICK_RATE] at h

theorem ai_cex_rot : (aiStep rng0.ai [] cexSheep).rotation = 0 := by
  unfold aiStep
  rw [behavior_cex, walk_cex]
  unfold aiHeadingStage
  dsimp only [cexSheep]
  norm_num [Real.sin_zero, Real.cos_zero, atan2_zero_one]

theorem ai_cex_vx : (aiStep rng0.ai [] cexSheep).velocityX = 0 := by
  unfold aiStep
  rw [behavior_cex, walk_cex]
  unfold aiHeadingStage
  dsimp only [cexSheep]
  norm_num [Real.sin_zero, Real.cos_zero, atan2_zero_one]

theorem ai_cex_vz : (aiStep rng0.ai [] cexSheep).velocityZ = 0.035 := by
  unfold aiStep
  rw [behavior_cex, walk_cex]
  unfold aiHeadingStage
  dsimp only [cexSheep]
  norm_num [Real.sin_zero, Real.cos_zero, atan2_zero_one, ACCELERATION]

theorem tick_cex_vz : (tickEntity rng0 inp0 [] "c2" cexSheep).1.velocityZ = 0.035 := by
  unfold tickEntity
  rw [if_neg (show ¬ cexSheep.isDead = true by simp [cexSheep])]
  dsimp only
  rw [phys_cex, lc_cex]
  dsimp only
  rw [if_pos (show cexSheep.isAI = true ∧ ¬ cexSheep.isDead = true from
    ⟨rfl, by simp [cexSheep]⟩)]
  exact ai_cex_vz

theorem friction_cex_vx : (frictionStage (aiStep rng0.ai [] cexSheep)).velocityX = 0 := by
  unfold frictionStage
  dsimp only
  rw [ai_cex_rot, ai_cex_vx, ai_cex_vz]
  norm_num [Real.sin_zero, Real.cos_zero, FRICTION, SIDEWAYS_FRICTION_MULTIPLIER]

theorem friction_cex_vz : (frictionStage (aiStep rng0.ai [] cexSheep)).velocityZ = 0.03325 := by
  unfold frictionStage
  dsimp only
  rw [ai_cex_rot, ai_cex_vx, ai_cex_vz]
  norm_num [Real.sin_zero, Real.cos_zero, FRICTION, SIDEWAYS_FRICTION_MULTIPLIER]

theorem clamp_cex_vz : (clampStage (frictionStage (aiStep rng0.ai [] cexSheep))).velocityZ = 0.03325 := by
  unfold clampStage
  dsimp only
  rw [friction_cex_vx, friction_cex_vz]
  rw [show ((0 : ℝ) ^ 2 + (0.03325 : ℝ) ^ 2) = 0.03325 ^ 2 by norm_num,
    Real.sqrt_sq (by norm_num : (0 : ℝ) ≤ 0.03325)]
  rw [if_neg (by norm_num), if_neg (by norm_num [MAX_SPEED])]

theorem spec_cex_vz : (specOrderTickAI rng0 inp0 [] "c2" cexSheep).1.velocityZ = 0.03325 := by
  unfold specOrderTickAI
  rw [if_neg (show ¬ cexSheep.isDead = true by simp [cexSheep])]
  dsimp only
  rw [turn_cex, thrust_cex]
  rw [lifecycleStep_velocityZ, tiltStage_velocityZ, groundStage_velocityZ]
  rw [scareOverrideStage_of_pers _ (by simp [cexSheep])]
  rw [integrateStage_velocityZ]
  exact clamp_cex_vz

/-- Counterexample for C2: on a concrete alive aggressive AI sheep with
velocity 0, the actual tick ends with `velocityZ = 0.035` (the AI thrust
is added after friction and clamp already ran), while a tick that ran
the heading-to-motion stage before the shared friction/clamp stages —
what the claim asserts — would end with `velocityZ = 0.035 * 0.95 =
0.03325`.  The two disagree, so the claimed ordering is false. -/
theorem ai_order_counterexample :
    (tickEntity rng0 inp0 [] "c2" cexSheep).1.velocityZ ≠
      (specOrderTickAI rng0 inp0 [] "c2" cexSheep).1.velocityZ := by
  rw [tick_cex_vz, spec_cex_vz]
  norm_num

/-- Claim C2, amended: within a tick, the AI controller's
heading-to-motion stage runs after — not before — the shared friction
and speed-clamp stages and after the death checks: for an alive AI
entity that survives the tick's death checks, the tick's result is
exactly the AI controller applied to the lifecycle-checked physics
output, so the AI thrust added in a tick first meets friction and clamp
in the next tick. -/
theorem ai_after_friction_order (rng : TickRng) (input : InputRecord) (others : List Player)
    (id : String) (p : Player) (h1 : p.isDead = false) (h2 : p.isAI = true)
    (h3 : (lifecycleStep id (physicsStep input p)).1.isDead = false) :
    (tickEntity rng input others id p).1 =
      aiStep rng.ai others (lifecycleStep id (physicsStep input p)).1 := by
  unfold tickEntity
  rw [if_neg (by rw [h1]; exact Bool.false_ne_true)]
  dsimp only
  rw [if_pos]
  constructor
  · rw [lifecycleStep_isAI, physicsStep_isAI]
    exact h2
  · rw [h3]
    exact Bool.false_ne_true

/-- Witness for the amended C2 on the concrete sheep. -/
theorem ai_after_friction_order_witness :
    (tickEntity rng0 inp0 [] "c2w" cexSheep).1 =
      aiStep rng0.ai [] (lifecycleStep ("c2w") (physicsStep inp0 cexSheep)).1 :=
  ai_after_friction_order rng0 inp0 [] "c2w" cexSheep rfl rfl
    (by rw [phys_cex, lc_cex]; rfl)

end SheepGame
